import Mathlib

/-!
# Verification of the dn3 wrapper against its natural-language specification

Shallow embedding of the four source files:
* `src/dn3/trainable/trainable.py` — `BaseTrainable` / `StandardClassifier`
  training loop, modelled as event traces and exact rational arithmetic;
* `src/dn3/transforms/basic.py` — `ZScore`, `TemporalPadding`,
  `MappingDeep1010` transforms, modelled as pure maps on rational tensors
  (tensors are flattened `List ℚ` or two-dimensional `List (List ℚ)`);
* `src/layers.py` — `ExpandLayer` shape bookkeeping and
  `AttentionLSTMIn.__init__` argument processing;
* `src/tests/testTransforms.py` — the reference z-score formula and the
  transform-registration tests.

Python/torch floats are modelled by exact rationals.  Where the float
semantics itself matters (division by a zero standard deviation) the result
domain is extended with `FVal.nan` / infinities, and `Rat.sqrt` stands in
for the square root (it is zero exactly on non-positive inputs, which is
the only property of the square root the claims use).
-/

namespace DN3

/-! ## Training loop as an event trace (`src/dn3/trainable/trainable.py`)

Each externally visible action of the loop bodies is one event.  The trace
of a method is the list of events its Python body performs, in order. -/

/-- One observable action of the training code. -/
inductive TrainEvent where
  | getBatch          -- `get_batch(data_iterator)` (fetch + move to device)
  | forward           -- `self.forward(...)`
  | calculateLoss     -- `self.calculate_loss(...)`
  | zeroGrad          -- `self.optimizer.zero_grad()`
  | lossBackward      -- `loss.backward()`
  | optimizerStep     -- `self.optimizer.step()`
  | schedulerStep     -- `self.scheduler.step()`
  | calculateMetrics  -- `self.calculate_metrics(...)`
  | setPostfix        -- `pbar.set_postfix(...)`
  | appendLog         -- `train_log.append(train_metrics)`
  | stepCallback      -- `step_callback(train_metrics)`
  | evaluateValidation -- `self.evaluate(validation_dataset)`
  | standardLogging   -- `self.standard_logging(...)`
  | epochCallback     -- `epoch_callback(val_metrics)`
  deriving DecidableEq, BEq

/-- Trace of `BaseTrainable.backward`: `optimizer.zero_grad(); loss.backward()`. -/
def backwardEvents : List TrainEvent :=
  [TrainEvent.zeroGrad, TrainEvent.lossBackward]

/-- Trace of `BaseTrainable.train_step` (trainable.py lines 106-114). -/
def trainStepEvents (hasScheduler : Bool) : List TrainEvent :=
  [TrainEvent.forward, TrainEvent.calculateLoss] ++ backwardEvents ++
    [TrainEvent.optimizerStep] ++
    (if hasScheduler then [TrainEvent.schedulerStep] else []) ++
    [TrainEvent.calculateMetrics]

/-- Trace of one iteration of the inner loop of `StandardClassifier.fit`
(trainable.py lines 219-232). -/
def fitIterationEvents (hasStepCallback : Bool) : List TrainEvent :=
  [TrainEvent.getBatch, TrainEvent.forward, TrainEvent.calculateLoss] ++
    backwardEvents ++
    [TrainEvent.calculateMetrics, TrainEvent.setPostfix, TrainEvent.appendLog] ++
    (if hasStepCallback then [TrainEvent.stepCallback] else [])

/-- Trace of one epoch of `StandardClassifier.fit`. -/
def fitEpochEvents (nBatches : Nat) (hasValidation hasStepCallback hasEpochCallback : Bool) :
    List TrainEvent :=
  (List.replicate nBatches (fitIterationEvents hasStepCallback)).flatten ++
    (if hasValidation then
      [TrainEvent.evaluateValidation, TrainEvent.standardLogging] ++
        (if hasEpochCallback then [TrainEvent.epochCallback] else [])
    else [])

/-- Trace of `StandardClassifier.fit` over all epochs. -/
def fitEvents (epochs nBatches : Nat) (hasValidation hasStepCallback hasEpochCallback : Bool) :
    List TrainEvent :=
  (List.replicate epochs
    (fitEpochEvents nBatches hasValidation hasStepCallback hasEpochCallback)).flatten

/-! ## Transforms (`src/dn3/transforms/basic.py`)

Tensors carry exact rationals.  `tmean`/`tvar`/`tstd` model
`x.mean()` / unbiased `x.var()` / `x.std()` over the flattened tensor;
`FVal` extends the value domain with the IEEE outcomes of dividing by a
zero denominator. -/

/-- Result of a float division: a finite value, `nan` (0/0) or ±∞ (x/0). -/
inductive FVal where
  | num (q : ℚ)
  | nan
  | posInf
  | negInf
  deriving DecidableEq, BEq

/-- Float division `a / b` with the IEEE zero-denominator outcomes. -/
def fdiv (a b : ℚ) : FVal :=
  if b = 0 then
    if a = 0 then FVal.nan else if 0 < a then FVal.posInf else FVal.negInf
  else FVal.num (a / b)

/-- `x.mean()` over the flattened tensor. -/
def tmean (x : List ℚ) : ℚ := x.sum / x.length

/-- `x.var()` (torch default: unbiased, divides by `n - 1`). -/
def tvar (x : List ℚ) : ℚ :=
  (x.map (fun v => (v - tmean x) ^ 2)).sum / ((x.length : ℚ) - 1)

/-- `x.std()`; `Rat.sqrt` models the float square root (all the claims use
of it is that it vanishes exactly on the non-positive rationals). -/
def tstd (x : List ℚ) : ℚ := Rat.sqrt (tvar x)

/-- `ZScore` transform object (fields from `BaseTransform.__init__`). -/
structure ZScore where
  only_trial_data : Bool
  deriving DecidableEq

/-- `ZScore.__call__`: `(x - x.mean()) / x.std()` element-wise
(basic.py lines 84-85). -/
def ZScore.call (_t : ZScore) (x : List ℚ) : List FVal :=
  x.map (fun v => fdiv (v - tmean x) (tstd x))

/-- The reference formula of the test suite
(`simple_zscoring`, tests/testTransforms.py lines 10-11). -/
def simple_zscoring (x : List ℚ) : List FVal :=
  x.map (fun v => fdiv (v - tmean x) (tstd x))

/-- State-passing form of `ZScore.__call__`: the method body is a single
return expression with no assignment to `self`, so the returned object
state is the incoming one. -/
def ZScore.callS (t : ZScore) (x : List ℚ) : List FVal × ZScore :=
  (ZScore.call t x, t)

/-- Decidable equality of `Except` results (used to evaluate fallible
calls on concrete inputs). -/
instance {ε α : Type} [DecidableEq ε] [DecidableEq α] : DecidableEq (Except ε α) :=
  fun a b =>
    match a, b with
    | Except.ok x, Except.ok y =>
        if h : x = y then isTrue (by rw [h])
        else isFalse (fun hc => h (Except.ok.inj hc))
    | Except.error x, Except.error y =>
        if h : x = y then isTrue (by rw [h])
        else isFalse (fun hc => h (Except.error.inj hc))
    | Except.ok _, Except.error _ => isFalse (fun hc => Except.noConfusion hc)
    | Except.error _, Except.ok _ => isFalse (fun hc => Except.noConfusion hc)

/-- Why `torch.nn.functional.pad` rejects a pad-size list. -/
inductive PadError where
  | oddLength   -- "Padding length must be divisible by 2"
  | tooLong     -- pad list longer than twice the number of dimensions
  deriving DecidableEq

/-- `torch.nn.functional.pad` on a 2-D tensor (rows of rationals) in
`constant` mode: `pad = [last_lo, last_hi, first_lo, first_hi]` pads the
last dimension, then (if present) the first.  The call fails when the pad
list has odd length or more than `2 * ndim = 4` entries. -/
def nnFunctionalPad (x : List (List ℚ)) (pad : List ℕ) (value : ℚ) :
    Except PadError (List (List ℚ)) :=
  if pad.length % 2 ≠ 0 then Except.error PadError.oddLength
  else if pad.length / 2 > 2 then Except.error PadError.tooLong
  else
    let p0 := pad.getD 0 0
    let p1 := pad.getD 1 0
    let p2 := pad.getD 2 0
    let p3 := pad.getD 3 0
    let rows := x.map (fun r => List.replicate p0 value ++ r ++ List.replicate p1 value)
    let width := (x.headD []).length + p0 + p1
    Except.ok (List.replicate p2 (List.replicate width value) ++ rows ++
      List.replicate p3 (List.replicate width value))

/-- `TemporalPadding` transform object (basic.py lines 88-109); only the
default `'constant'` mode is given content semantics. -/
structure TemporalPadding where
  start_padding : ℕ
  end_padding : ℕ
  mode : String
  constant_value : ℚ
  only_trial_data : Bool
  deriving DecidableEq

/-- `TemporalPadding.__call__` (basic.py lines 111-113):
`pad = [start, end] + [0 for _ in range(2, x.shape[-1])]` — note the
range bound is the last-dimension size, not the dimension count — then
`torch.nn.functional.pad(x, pad, ...)`. -/
def TemporalPadding.call (t : TemporalPadding) (x : List (List ℚ)) :
    Except PadError (List (List ℚ)) :=
  let pad := [t.start_padding, t.end_padding] ++
    List.replicate ((x.headD []).length - 2) 0
  nnFunctionalPad x pad t.constant_value

/-- `TemporalPadding.new_sequence_length` (basic.py lines 115-116). -/
def TemporalPadding.new_sequence_length (t : TemporalPadding) (old_sequence_length : ℕ) : ℕ :=
  old_sequence_length + t.start_padding + t.end_padding

/-- State-passing form of `TemporalPadding.__call__`: the body only binds a
local `pad` and returns, with no assignment to `self`. -/
def TemporalPadding.callS (t : TemporalPadding) (x : List (List ℚ)) :
    Except PadError (List (List ℚ)) × TemporalPadding :=
  (TemporalPadding.call t x, t)

/-- Matrix transpose of a rational tensor (`x.transpose(1, 0)`). -/
def mtranspose (x : List (List ℚ)) : List (List ℚ) := x.transpose

/-- Matrix product (`@`). -/
def matMul (a b : List (List ℚ)) : List (List ℚ) :=
  a.map (fun row => b.transpose.map (fun col => (List.zipWith (· * ·) row col).sum))

/-- `MappingDeep1010` transform object (basic.py lines 119-129): it stores
`self.mapping` (a channels × Deep-1010 matrix) plus two flags. -/
structure MappingDeep1010 where
  mapping : List (List ℚ)
  add_scale_ind : Bool
  return_mask : Bool
  only_trial_data : Bool
  deriving DecidableEq

/-- Result of `MappingDeep1010.__call__`: the mapped tensor, optionally
paired with the channel mask `self.mapping.sum(dim=0)`. -/
inductive MappedOut where
  | plain (x : List (List ℚ))
  | withMask (x : List (List ℚ)) (mask : List ℚ)
  deriving DecidableEq

/-- `MappingDeep1010.__call__` (basic.py lines 135-140):
`x = (x.transpose(1, 0) @ self.mapping).transpose(1, 0)`, returned with the
column-sum mask when `return_mask`. -/
def MappingDeep1010.call (t : MappingDeep1010) (x : List (List ℚ)) : MappedOut :=
  let x' := mtranspose (matMul (mtranspose x) t.mapping)
  if t.return_mask then MappedOut.withMask x' (t.mapping.transpose.map List.sum)
  else MappedOut.plain x'

/-- State-passing form of `MappingDeep1010.__call__`: the body rebinds the
local `x` only; `self` is read, never written. -/
def MappingDeep1010.callS (t : MappingDeep1010) (x : List (List ℚ)) :
    MappedOut × MappingDeep1010 :=
  (MappingDeep1010.call t x, t)

/-! ## `BaseTrainable.evaluate` metric accumulation

The per-batch metric dictionaries all share one key set `K` (the claim's
hypothesis), so a dict is a total function `K → ℚ` and the initially empty
`metrics = OrderedDict()` is `none`. -/

/-- The `update_metrics` closure of `BaseTrainable.evaluate` (trainable.py
lines 133-138): a wholesale copy into the empty dict, otherwise the
running-average update of every key of `new_metrics`. -/
def update_metrics {K : Type} (metrics : Option (K → ℚ)) (new_metrics : K → ℚ)
    (iterations : ℕ) : K → ℚ :=
  match metrics with
  | none => new_metrics
  | some ms => fun m => (ms m * ((iterations : ℚ) - 1) + new_metrics m) / (iterations : ℚ)

/-- The `for iteration in pbar` loop of `BaseTrainable.evaluate`
(trainable.py lines 140-145); batch number `iteration` (1-based here, the
Python loop passes `iteration + 1` for its 0-based index). -/
def evaluateLoop {K : Type} (metrics : Option (K → ℚ)) (iteration : ℕ) :
    List (K → ℚ) → Option (K → ℚ)
  | [] => metrics
  | b :: rest =>
      evaluateLoop (some (update_metrics metrics b iteration)) (iteration + 1) rest

/-- `BaseTrainable.evaluate` (trainable.py lines 116-147) over the list of
per-batch metric dicts produced by `calculate_metrics`. -/
def evaluate {K : Type} (batches : List (K → ℚ)) : Option (K → ℚ) :=
  evaluateLoop none 1 batches

/-! ## Dataset splitting (`dn3.data.dataset`, tests in
`src/tests/testTransforms.py`) -/

/-- Modelled from the spec: the dataset container of `dn3.data.dataset`
(not under `src/`; only its tests are).  Per the spec's testable
properties, it registers transforms in a `_transforms` list and the
splitting operations (`loso`, `lmso`, `split`) hand every produced
training/validation/testing subset the parent's transform list;
`clear_transforms` empties it.  `thinkers` maps person ids to session
ids. -/
structure Dataset (α : Type) where
  thinkers : List (String × List String)
  transforms : List α
  deriving DecidableEq

/-- Modelled from the spec: `add_transform` registers a transform. -/
def add_transform {α : Type} (d : Dataset α) (t : α) : Dataset α :=
  { d with transforms := d.transforms ++ [t] }

/-- Modelled from the spec: `clear_transforms` removes all registered
transforms. -/
def clear_transforms {α : Type} (d : Dataset α) : Dataset α :=
  { d with transforms := [] }

/-- Modelled from the spec: a subset produced by a splitting operation
keeps the parent's transform list. -/
def subsetOf {α : Type} (d : Dataset α) (ths : List (String × List String)) : Dataset α :=
  { thinkers := ths, transforms := d.transforms }

/-- Modelled from the spec: leave-one-subject-out — for each held-out
thinker, a (training, validation, testing) triple of subsets. -/
def loso {α : Type} (d : Dataset α) : List (Dataset α × Dataset α × Dataset α) :=
  (List.range d.thinkers.length).map (fun i =>
    (subsetOf d (d.thinkers.take i ++ d.thinkers.drop (i + 1)),
     subsetOf d ((d.thinkers.drop ((i + 1) % d.thinkers.length)).take 1),
     subsetOf d ((d.thinkers.drop i).take 1)))

/-- Modelled from the spec: leave-multiple-subjects-out over `folds`
contiguous folds of thinkers. -/
def lmso {α : Type} (d : Dataset α) (folds : ℕ) :
    List (Dataset α × Dataset α × Dataset α) :=
  let size := d.thinkers.length / folds
  (List.range folds).map (fun i =>
    (subsetOf d (d.thinkers.take (i * size) ++ d.thinkers.drop ((i + 1) * size)),
     subsetOf d ((d.thinkers.drop (((i + 1) % folds) * size)).take size),
     subsetOf d ((d.thinkers.drop (i * size)).take size)))

/-- Modelled from the spec: `split(testing_sess_ids=...)` — sessions in the
given id list go to the testing subset, the rest to training and
validation.  (The session bookkeeping is irrelevant to the transform
claims; the subsets inherit the transform list.) -/
def split {α : Type} (d : Dataset α) (testing_sess_ids : List String) :
    Dataset α × Dataset α × Dataset α :=
  let rest := d.thinkers.map (fun p =>
    (p.1, p.2.filter (fun s => !(testing_sess_ids.contains s))))
  let test := d.thinkers.map (fun p =>
    (p.1, p.2.filter (fun s => testing_sess_ids.contains s)))
  (subsetOf d rest, subsetOf d rest, subsetOf d test)

/-! ## Assertion checks of the trainable wrapper
(`src/dn3/trainable/trainable.py` lines 23-27 and 167-169) -/

/-- The runtime type of the `cuda` argument: a Python bool, a str, or any
other value. -/
inductive PyCuda where
  | boolVal (b : Bool)
  | strVal (s : String)
  | otherVal
  deriving DecidableEq

/-- A stand-in for a `torch.nn.Module` reference. -/
structure NNModule where
  id : ℕ
  deriving DecidableEq

/-- The state `BaseTrainable.__init__` has built when its assertion has
been passed: the stored `self.cuda` argument and the device string. -/
structure BaseTrainableInitState where
  cuda : PyCuda
  device : String
  deriving DecidableEq

/-- The cuda-checking prefix of `BaseTrainable.__init__` (trainable.py
lines 23-27): store `cuda`, rebind a bool to `"cuda"`/`"cpu"`, then
`assert isinstance(cuda, str)`; an `Except.error` is the raised
`AssertionError`, which lets no state escape. -/
def BaseTrainable.initCuda (cuda : PyCuda) : Except String BaseTrainableInitState :=
  let cuda' := match cuda with
    | PyCuda.boolVal b => PyCuda.strVal (if b then "cuda" else "cpu")
    | c => c
  match cuda' with
  | PyCuda.strVal s => Except.ok { cuda := cuda, device := s }
  | _ => Except.error "AssertionError"

/-- The state `StandardClassifier.build_network` leaves behind. -/
structure StandardClassifierState where
  classifier : NNModule
  deriving DecidableEq

/-- `StandardClassifier.build_network` (trainable.py lines 167-169):
`assert classifier is not None; self.classifier = classifier`. -/
def StandardClassifier.build_network (classifier : Option NNModule) :
    Except String StandardClassifierState :=
  match classifier with
  | none => Except.error "AssertionError"
  | some c => Except.ok { classifier := c }

/-- `Except.isOk`-style success test. -/
def okB {ε α : Type} : Except ε α → Bool
  | Except.ok _ => true
  | Except.error _ => false

/-! ## `ExpandLayer` shape bookkeeping (`src/layers.py` lines 6-24) -/

/-- Python `list.insert(i, v)`: a negative index counts from the end of
the list, and the index is clamped to the bounds. -/
def pyInsert {α : Type} (i : ℤ) (v : α) (l : List α) : List α :=
  let n : ℤ := l.length
  let j : ℤ := if i < 0 then max 0 (n + i) else min i n
  List.insertIdx j.toNat v l

/-- `ExpandLayer` stores only its `axis` argument. -/
structure ExpandLayer where
  axis : ℤ
  deriving DecidableEq

/-- `ExpandLayer.compute_output_signature` (layers.py lines 12-18):
normalise a negative axis by the input rank, then
`input_signature.insert(ax + 1, 1)`. -/
def ExpandLayer.compute_output_signature (l : ExpandLayer) (input_signature : List ℕ) :
    List ℕ :=
  let ax := if l.axis < 0 then (input_signature.length : ℤ) + l.axis else l.axis
  pyInsert (ax + 1) 1 input_signature

/-- The shape of `tf.expand_dims(inputs, axis)`: a size-1 dimension is
inserted so that it sits at position `axis` of the output (counted from
the end when negative); the axis must lie in `[-(rank+1), rank]`. -/
def tfExpandDimsShape (axis : ℤ) (shape : List ℕ) : Option (List ℕ) :=
  let r : ℤ := shape.length
  if axis < -(r + 1) ∨ r < axis then none
  else some (List.insertIdx (if axis < 0 then r + 1 + axis else axis).toNat 1 shape)

/-- Shape of the tensor returned by `ExpandLayer.call` (layers.py
lines 20-21). -/
def ExpandLayer.callShape (l : ExpandLayer) (shape : List ℕ) : Option (List ℕ) :=
  tfExpandDimsShape l.axis shape

/-! ## `AttentionLSTMIn.__init__` (`src/layers.py` lines 60-76) -/

/-- The runtime shape of the `alignment_units` argument: `None`, a single
number, or a list/tuple of numbers. -/
inductive AlignmentUnits where
  | pyNone
  | scalar (n : ℕ)
  | listOf (l : List ℕ)
  deriving DecidableEq

/-- `AttentionLSTMIn.ATT_STYLES` (layers.py line 60). -/
def ATT_STYLES : List String := ["local", "global"]

/-- The attributes `AttentionLSTMIn.__init__` sets before delegating to
the framework LSTM constructor. -/
structure AttentionLSTMInState where
  units : ℕ
  implementation : ℤ
  alignment_depth : ℕ
  alignment_units : List ℕ
  style : String
  deriving DecidableEq

/-- `AttentionLSTMIn.__init__` (layers.py lines 62-76): default a
non-positive `implementation` to 2, clamp `alignment_depth` at 0, take the
depth from `len(alignment_units)` when a list/tuple is given (a falsy —
zero or `None` — scalar falls back to `units`), then raise `TypeError`
unless `style` is one of `ATT_STYLES`. -/
def AttentionLSTMIn.init (units : ℕ) (alignment_depth : ℤ) (style : String)
    (alignment_units : AlignmentUnits) (implementation : ℤ) :
    Except String AttentionLSTMInState :=
  let implementation := if implementation > 0 then implementation else 2
  let alignment_depth := max 0 alignment_depth
  let au_ad : List ℕ × ℕ := match alignment_units with
    | AlignmentUnits.listOf l => (l, l.length)
    | AlignmentUnits.scalar u =>
        (List.replicate alignment_depth.toNat (if u ≠ 0 then u else units),
          alignment_depth.toNat)
    | AlignmentUnits.pyNone =>
        (List.replicate alignment_depth.toNat units, alignment_depth.toNat)
  if style ∈ ATT_STYLES then
    Except.ok { units := units, implementation := implementation,
                alignment_depth := au_ad.2, alignment_units := au_ad.1, style := style }
  else Except.error ("Could not understand style: " ++ style)

end DN3

/-- C1: the spec's training loop steps the optimizer once per batch, and
`BaseTrainable.train_step` indeed does, but the inner loop of
`StandardClassifier.fit` never emits `optimizerStep`: over any run of `fit`
(here 3 epochs × 5 batches with validation and both callbacks) the count of
optimizer steps is 0, while `train_step` performs exactly one per call. -/
theorem fit_omits_optimizer_step :
    (DN3.fitIterationEvents false).count DN3.TrainEvent.optimizerStep = 0 ∧
    (DN3.fitIterationEvents true).count DN3.TrainEvent.optimizerStep = 0 ∧
    (DN3.fitEvents 3 5 true true true).count DN3.TrainEvent.optimizerStep = 0 ∧
    (DN3.trainStepEvents false).count DN3.TrainEvent.optimizerStep = 1 ∧
    (DN3.trainStepEvents true).count DN3.TrainEvent.optimizerStep = 1 := by
  decide

/-- C2: `ZScore.__call__(x)` equals the test suite's reference z-score
formula `(x - x.mean()) / x.std()` element-wise, for every input tensor
and every `ZScore` object. -/
theorem zscore_matches_reference (t : DN3.ZScore) (x : List ℚ) :
    DN3.ZScore.call t x = DN3.simple_zscoring x := rfl

/-- C2 witness: the reference equality at a concrete tensor. -/
theorem zscore_matches_reference_witness :
    DN3.ZScore.call ⟨true⟩ [1, 2, 3] = DN3.simple_zscoring [1, 2, 3] :=
  zscore_matches_reference ⟨true⟩ [1, 2, 3]

/-- C4: the claim says `TemporalPadding.__call__` always returns a tensor
whose last dimension grew by `start_padding + end_padding`, as
`new_sequence_length` promises.  The code instead builds the pad list from
`range(2, x.shape[-1])`, so on a 2 × 5 trial with padding (1, 1) the pad
list is `[1, 1, 0, 0, 0]` and `torch.nn.functional.pad` rejects it (odd
length) — no tensor of width `new_sequence_length 5 = 7` is produced.  On
the rare widths the pad list stays legal (e.g. 2 × 4) the promised width
does come out, confirming the intent. -/
theorem temporal_padding_rejects_typical_trials :
    DN3.TemporalPadding.call ⟨1, 1, "constant", 0, true⟩
        [[0, 0, 0, 0, 0], [0, 0, 0, 0, 0]] = Except.error DN3.PadError.oddLength ∧
    DN3.TemporalPadding.new_sequence_length ⟨1, 1, "constant", 0, true⟩ 5 = 7 ∧
    DN3.TemporalPadding.call ⟨1, 1, "constant", 0, true⟩
        [[4, 4, 4, 4], [4, 4, 4, 4]] =
      Except.ok [[0, 4, 4, 4, 4, 0], [0, 4, 4, 4, 4, 0]] ∧
    DN3.TemporalPadding.new_sequence_length ⟨1, 1, "constant", 0, true⟩ 4 = 6 := by
  decide

/-- A list of non-negative rationals with zero sum is all zeros. -/
theorem sum_nonneg_all_zero {l : List ℚ} (hpos : ∀ v ∈ l, 0 ≤ v) (h : l.sum = 0) :
    ∀ v ∈ l, v = 0 := by
  induction l with
  | nil => intro v hv; exact absurd hv (List.not_mem_nil v)
  | cons a t ih =>
    have hts : 0 ≤ t.sum :=
      List.sum_nonneg (fun v hv => hpos v (List.mem_cons_of_mem _ hv))
    have ha : 0 ≤ a := hpos a (List.mem_cons_self _ _)
    rw [List.sum_cons] at h
    intro v hv
    rcases List.mem_cons.mp hv with rfl | hv
    · linarith
    · exact ih (fun w hw => hpos w (List.mem_cons_of_mem _ hw)) (by linarith) v hv

/-- The unbiased variance of a rational tensor is non-negative (for fewer
than two elements the rational division-by-zero convention makes it `0`). -/
theorem tvar_nonneg (x : List ℚ) : 0 ≤ DN3.tvar x := by
  match x with
  | [] => norm_num [DN3.tvar]
  | [a] => norm_num [DN3.tvar]
  | a :: b :: t =>
    apply div_nonneg
    · apply List.sum_nonneg
      intro v hv
      rw [List.mem_map] at hv
      obtain ⟨w, _, rfl⟩ := hv
      positivity
    · have hc : (0 : ℚ) ≤ t.length := Nat.cast_nonneg _
      have h2 : (((a :: b :: t).length : ℚ)) = (t.length : ℚ) + 2 := by
        push_cast [List.length_cons]; ring
      rw [h2]; linarith

/-- `Rat.sqrt` of a positive rational is positive. -/
theorem rat_sqrt_pos_of_pos {q : ℚ} (h : 0 < q) : 0 < Rat.sqrt q := by
  have hnum : 0 < q.num := Rat.num_pos.mpr h
  have hsq : 0 < Int.sqrt q.num := by
    unfold Int.sqrt
    exact_mod_cast Nat.sqrt_pos.mpr (by omega : 0 < q.num.toNat)
  have hden : 0 < Nat.sqrt q.den := Nat.sqrt_pos.mpr q.den_pos
  rw [Rat.sqrt, Rat.mkRat_eq_divInt, Rat.divInt_eq_div]
  apply div_pos
  · exact_mod_cast hsq
  · exact_mod_cast hden

/-- If the modelled `x.std()` is zero, the tensor is constant: every
element equals the mean. -/
theorem tstd_zero_all_mean {x : List ℚ} (h : DN3.tstd x = 0) :
    ∀ v ∈ x, v = DN3.tmean x := by
  match x with
  | [] => intro v hv; exact absurd hv (List.not_mem_nil v)
  | [a] =>
    intro v hv
    rw [List.mem_singleton] at hv
    subst hv
    simp [DN3.tmean]
  | a :: b :: t =>
    have hvar : DN3.tvar (a :: b :: t) = 0 := by
      by_contra hne
      have hpos : 0 < DN3.tvar (a :: b :: t) :=
        lt_of_le_of_ne (tvar_nonneg _) (Ne.symm hne)
      exact absurd h (ne_of_gt (rat_sqrt_pos_of_pos hpos))
    have hden : (((a :: b :: t).length : ℚ)) - 1 ≠ 0 := by
      have hc : (0 : ℚ) ≤ t.length := Nat.cast_nonneg _
      have h2 : (((a :: b :: t).length : ℚ)) = (t.length : ℚ) + 2 := by
        push_cast [List.length_cons]; ring
      rw [h2]; intro hz; linarith
    have hsum : ((a :: b :: t).map (fun v => (v - DN3.tmean (a :: b :: t)) ^ 2)).sum = 0 := by
      unfold DN3.tvar at hvar
      rcases div_eq_zero_iff.mp hvar with h0 | h0
      · exact h0
      · exact absurd h0 hden
    intro v hv
    have hall := sum_nonneg_all_zero
      (fun w hw => by rw [List.mem_map] at hw; obtain ⟨u, _, rfl⟩ := hw; positivity) hsum
    have hz : (v - DN3.tmean (a :: b :: t)) ^ 2 = 0 :=
      hall _ (List.mem_map_of_mem _ hv)
    have hv0 : v - DN3.tmean (a :: b :: t) = 0 :=
      (pow_eq_zero_iff (by norm_num : (2 : ℕ) ≠ 0)).mp hz
    linarith

/-- C8: `ZScore.__call__` divides by `x.std()` with no guard.  When the
standard deviation is non-zero every output entry is the finite value
`(x - x.mean()) / x.std()`; when it is zero (a constant tensor) every
numerator `x - x.mean()` is also zero, so each entry is the IEEE `0/0`
outcome `nan` — the call never raises. -/
theorem zscore_division_unguarded (t : DN3.ZScore) (x : List ℚ) :
    (DN3.tstd x ≠ 0 →
      DN3.ZScore.call t x =
        x.map (fun v => DN3.FVal.num ((v - DN3.tmean x) / DN3.tstd x))) ∧
    (DN3.tstd x = 0 → DN3.ZScore.call t x = x.map (fun _ => DN3.FVal.nan)) := by
  constructor
  · intro h
    unfold DN3.ZScore.call
    apply List.map_congr_left
    intro v _
    simp [DN3.fdiv, h]
  · intro h
    unfold DN3.ZScore.call
    apply List.map_congr_left
    intro v hv
    have hm : v = DN3.tmean x := tstd_zero_all_mean h v hv
    simp [DN3.fdiv, h, hm]

/-- C8 witness: the tensor `[1, 2, 3]` has standard deviation 1 and maps to
finite values; the constant tensor `[5, 5, 5]` has standard deviation 0 and
maps to all-`nan`. -/
theorem zscore_division_unguarded_witness :
    DN3.ZScore.call ⟨true⟩ [1, 2, 3] =
      [DN3.FVal.num (-1), DN3.FVal.num 0, DN3.FVal.num 1] ∧
    DN3.ZScore.call ⟨true⟩ [5, 5, 5] = [DN3.FVal.nan, DN3.FVal.nan, DN3.FVal.nan] := by
  have hv1 : DN3.tvar [1, 2, 3] = 1 := by norm_num [DN3.tvar, DN3.tmean]
  have hs1 : DN3.tstd [1, 2, 3] = 1 := by
    rw [DN3.tstd, hv1, show (1 : ℚ) = 1 * 1 by ring, Rat.sqrt_eq]
    norm_num
  have hv5 : DN3.tvar [5, 5, 5] = 0 := by norm_num [DN3.tvar, DN3.tmean]
  have hs5 : DN3.tstd [5, 5, 5] = 0 := by
    rw [DN3.tstd, hv5, show (0 : ℚ) = 0 * 0 by ring, Rat.sqrt_eq]
    norm_num
  constructor
  · rw [(zscore_division_unguarded ⟨true⟩ [1, 2, 3]).1 (by rw [hs1]; norm_num)]
    simp [hs1, DN3.tmean]
    norm_num
  · rw [(zscore_division_unguarded ⟨true⟩ [5, 5, 5]).2 hs5]
    rfl

/-- C5: the concrete transforms are stateless tensor maps.  In the
state-passing embedding of their `__call__` bodies (none of which assigns
to `self`), the object state after a call is the state before it, and
equal inputs give equal outputs. -/
theorem transforms_stateless (tz : DN3.ZScore) (tp : DN3.TemporalPadding)
    (tm : DN3.MappingDeep1010) (x y : List ℚ) (m m' : List (List ℚ)) :
    ((DN3.ZScore.callS tz x).2 = tz ∧
      (x = y → DN3.ZScore.callS tz x = DN3.ZScore.callS tz y)) ∧
    ((DN3.TemporalPadding.callS tp m).2 = tp ∧
      (m = m' → DN3.TemporalPadding.callS tp m = DN3.TemporalPadding.callS tp m')) ∧
    ((DN3.MappingDeep1010.callS tm m).2 = tm ∧
      (m = m' → DN3.MappingDeep1010.callS tm m = DN3.MappingDeep1010.callS tm m')) := by
  refine ⟨⟨rfl, ?_⟩, ⟨rfl, ?_⟩, ⟨rfl, ?_⟩⟩ <;> (intro h; rw [h])

/-- C5 witness: state preservation and determinism at concrete transforms
and tensors. -/
theorem transforms_stateless_witness :
    (DN3.ZScore.callS ⟨true⟩ [1, 2]).2 = (⟨true⟩ : DN3.ZScore) ∧
    DN3.ZScore.callS ⟨true⟩ [1, 2] = DN3.ZScore.callS ⟨true⟩ [1, 2] ∧
    (DN3.TemporalPadding.callS ⟨1, 2, "constant", 0, true⟩ [[3, 4]]).2 =
      (⟨1, 2, "constant", 0, true⟩ : DN3.TemporalPadding) ∧
    DN3.TemporalPadding.callS ⟨1, 2, "constant", 0, true⟩ [[3, 4]] =
      DN3.TemporalPadding.callS ⟨1, 2, "constant", 0, true⟩ [[3, 4]] ∧
    (DN3.MappingDeep1010.callS ⟨[[1]], true, true, true⟩ [[3, 4]]).2 =
      (⟨[[1]], true, true, true⟩ : DN3.MappingDeep1010) ∧
    DN3.MappingDeep1010.callS ⟨[[1]], true, true, true⟩ [[3, 4]] =
      DN3.MappingDeep1010.callS ⟨[[1]], true, true, true⟩ [[3, 4]] := by
  obtain ⟨⟨h1, h2⟩, ⟨h3, h4⟩, ⟨h5, h6⟩⟩ :=
    transforms_stateless ⟨true⟩ ⟨1, 2, "constant", 0, true⟩ ⟨[[1]], true, true, true⟩
      [1, 2] [1, 2] [[3, 4]] [[3, 4]]
  exact ⟨h1, h2 rfl, h3, h4 rfl, h5, h6 rfl⟩

/-- Invariant of the `evaluate` loop: entering iteration `n + 1` with a
metrics dict holding the running mean `f` of the first `n` batches, the
loop returns, at every key, the mean extended over the remaining batches. -/
theorem evaluateLoop_mean {K : Type} :
    ∀ (rest : List (K → ℚ)) (f : K → ℚ) (n : ℕ), 0 < n → ∀ k,
      Option.map (fun g => g k) (DN3.evaluateLoop (some f) (n + 1) rest) =
        some ((f k * n + (rest.map (fun b => b k)).sum) / ((n : ℚ) + rest.length)) := by
  intro rest
  induction rest with
  | nil =>
    intro f n hn k
    have hne : ((n : ℚ)) ≠ 0 := by exact_mod_cast hn.ne'
    simp [DN3.evaluateLoop]
    field_simp
  | cons b rest ih =>
    intro f n hn k
    have hne : ((n : ℚ)) + 1 ≠ 0 := by positivity
    rw [show DN3.evaluateLoop (some f) (n + 1) (b :: rest) =
        DN3.evaluateLoop (some (DN3.update_metrics (some f) b (n + 1))) ((n + 1) + 1) rest
      from rfl]
    rw [ih (DN3.update_metrics (some f) b (n + 1)) (n + 1) (Nat.succ_pos n) k]
    congr 1
    unfold DN3.update_metrics
    push_cast
    rw [show ((n : ℚ) + 1 - 1) = (n : ℚ) by ring]
    field_simp
    ring

/-- C3: over a non-empty dataset whose per-batch metric dicts share their
keys, `BaseTrainable.evaluate` returns at every key the arithmetic mean of
that key's per-batch values: the update
`(metrics[m]*(iterations-1) + new_metrics[m]) / iterations` keeps the
running mean exact at every iteration. -/
theorem evaluate_running_mean {K : Type} (batches : List (K → ℚ))
    (h : batches ≠ []) (k : K) :
    Option.map (fun f => f k) (DN3.evaluate batches) =
      some ((batches.map (fun b => b k)).sum / (batches.length : ℚ)) := by
  match batches with
  | [] => exact absurd rfl h
  | b :: rest =>
    rw [show DN3.evaluate (b :: rest) = DN3.evaluateLoop (some b) 2 rest from rfl]
    rw [evaluateLoop_mean rest b 1 Nat.one_pos k]
    congr 1
    simp only [List.map_cons, List.sum_cons, List.length_cons]
    push_cast
    ring_nf

/-- C3 witness: two batches with metric values 1 and 2 average to 3/2. -/
theorem evaluate_running_mean_witness :
    Option.map (fun f => f 0) (DN3.evaluate [fun _ : ℕ => (1 : ℚ), fun _ => 2]) =
      some (3 / 2) := by
  rw [evaluate_running_mean (K := ℕ) [fun _ => (1 : ℚ), fun _ => 2] (by simp) 0]
  norm_num

/-- C6: a registered transform is in `_transforms`; every training,
validation and testing subset produced by `loso`, `lmso` or `split` still
carries it; `clear_transforms` removes it. -/
theorem transform_survives_splits {α : Type} (d : DN3.Dataset α) (t : α)
    (h : t ∈ d.transforms) :
    (∀ (d₂ : DN3.Dataset α) (t₂ : α), t₂ ∈ (DN3.add_transform d₂ t₂).transforms) ∧
    (∀ p ∈ DN3.loso d,
      t ∈ p.1.transforms ∧ t ∈ p.2.1.transforms ∧ t ∈ p.2.2.transforms) ∧
    (∀ folds, ∀ p ∈ DN3.lmso d folds,
      t ∈ p.1.transforms ∧ t ∈ p.2.1.transforms ∧ t ∈ p.2.2.transforms) ∧
    (∀ ids, t ∈ (DN3.split d ids).1.transforms ∧
      t ∈ (DN3.split d ids).2.1.transforms ∧ t ∈ (DN3.split d ids).2.2.transforms) ∧
    t ∉ (DN3.clear_transforms d).transforms := by
  refine ⟨?_, ?_, ?_, ?_, ?_⟩
  · intro d₂ t₂
    simp [DN3.add_transform]
  · intro p hp
    rw [DN3.loso, List.mem_map] at hp
    obtain ⟨i, _, rfl⟩ := hp
    exact ⟨h, h, h⟩
  · intro folds p hp
    rw [DN3.lmso, List.mem_map] at hp
    obtain ⟨i, _, rfl⟩ := hp
    exact ⟨h, h, h⟩
  · intro ids
    exact ⟨h, h, h⟩
  · simp [DN3.clear_transforms]

/-- C6 witness: a two-thinker dataset carrying transform `7`. -/
theorem transform_survives_splits_witness :
    7 ∈ (DN3.split (⟨[("p1", ["s1", "s2"]), ("p2", ["s1"])], [7]⟩ : DN3.Dataset ℕ)
      ["s1"]).2.2.transforms ∧
    7 ∉ (DN3.clear_transforms
      (⟨[("p1", ["s1", "s2"]), ("p2", ["s1"])], [7]⟩ : DN3.Dataset ℕ)).transforms := by
  have H := transform_survives_splits
    (⟨[("p1", ["s1", "s2"]), ("p2", ["s1"])], [7]⟩ : DN3.Dataset ℕ) 7 (by simp)
  exact ⟨(H.2.2.2.1 ["s1"]).2.2, H.2.2.2.2⟩

/-- C7: the wrapper's own failure checks are assertions only.
`BaseTrainable.__init__` raises `AssertionError` exactly when `cuda` is
neither a bool nor a str (the `otherVal` case), `StandardClassifier.
build_network` raises it exactly when `classifier` is `None`, and in both
cases the result is the bare error — no recovery, retry, or surviving
state. -/
theorem assertion_checks_only (cuda : DN3.PyCuda) (classifier : Option DN3.NNModule) :
    (DN3.okB (DN3.BaseTrainable.initCuda cuda) = true ↔ cuda ≠ DN3.PyCuda.otherVal) ∧
    (DN3.BaseTrainable.initCuda cuda = Except.error "AssertionError" ↔
      cuda = DN3.PyCuda.otherVal) ∧
    (DN3.okB (DN3.StandardClassifier.build_network classifier) = true ↔ classifier ≠ none) ∧
    (DN3.StandardClassifier.build_network classifier = Except.error "AssertionError" ↔
      classifier = none) := by
  refine ⟨?_, ?_, ?_, ?_⟩
  · cases cuda <;> simp [DN3.BaseTrainable.initCuda, DN3.okB]
  · cases cuda <;> simp [DN3.BaseTrainable.initCuda]
  · cases classifier <;> simp [DN3.StandardClassifier.build_network, DN3.okB]
  · cases classifier <;> simp [DN3.StandardClassifier.build_network]

/-- C7 witness: concrete successes and assertion failures. -/
theorem assertion_checks_only_witness :
    DN3.okB (DN3.BaseTrainable.initCuda (DN3.PyCuda.strVal "cuda")) = true ∧
    DN3.BaseTrainable.initCuda DN3.PyCuda.otherVal = Except.error "AssertionError" ∧
    DN3.okB (DN3.StandardClassifier.build_network (some ⟨0⟩)) = true ∧
    DN3.StandardClassifier.build_network none = Except.error "AssertionError" := by
  refine ⟨?_, ?_, ?_, ?_⟩
  · exact (assertion_checks_only (DN3.PyCuda.strVal "cuda") none).1.mpr (by simp)
  · exact (assertion_checks_only DN3.PyCuda.otherVal none).2.1.mpr rfl
  · exact (assertion_checks_only DN3.PyCuda.otherVal (some ⟨0⟩)).2.2.1.mpr (by simp)
  · exact (assertion_checks_only DN3.PyCuda.otherVal none).2.2.2.mpr rfl

/-- C9 counterexample: at the accepted axis 0 on a rank-2 input,
`ExpandLayer.call` produces shape (1, 2, 3) (`tf.expand_dims` inserts at
position 0) but `compute_output_signature` inserts at `ax + 1` and reports
(2, 1, 3). -/
theorem expand_layer_signature_mismatch :
    DN3.ExpandLayer.callShape ⟨0⟩ [2, 3] = some [1, 2, 3] ∧
    DN3.ExpandLayer.compute_output_signature ⟨0⟩ [2, 3] = [2, 1, 3] ∧
    some (DN3.ExpandLayer.compute_output_signature ⟨0⟩ [2, 3]) ≠
      DN3.ExpandLayer.callShape ⟨0⟩ [2, 3] := by
  refine ⟨rfl, rfl, by decide⟩

/-- C9 (amended): for every input shape and every accepted *negative* axis
(and also the extreme `axis = rank`), the shape reported by
`compute_output_signature` equals the shape produced by `call`; for
`0 ≤ axis < rank` the two differ as the counterexample shows. -/
theorem expand_layer_signature_negative_axis (shape : List ℕ) (axis : ℤ)
    (hlo : -((shape.length : ℤ) + 1) ≤ axis)
    (h : axis < 0 ∨ axis = (shape.length : ℤ)) :
    some (DN3.ExpandLayer.compute_output_signature ⟨axis⟩ shape) =
      DN3.ExpandLayer.callShape ⟨axis⟩ shape := by
  have hn : (0 : ℤ) ≤ (shape.length : ℤ) := Int.natCast_nonneg _
  simp only [DN3.ExpandLayer.compute_output_signature, DN3.ExpandLayer.callShape,
    DN3.tfExpandDimsShape, DN3.pyInsert]
  rcases h with h | h
  · rw [if_pos h]
    rw [if_neg (by omega : ¬((shape.length : ℤ) + axis + 1 < 0))]
    rw [if_neg (by omega :
      ¬(axis < -((shape.length : ℤ) + 1) ∨ (shape.length : ℤ) < axis))]
    rw [if_pos h]
    congr 2
    omega
  · rw [if_neg (by omega : ¬(axis < 0))]
    rw [if_neg (by omega : ¬(axis + 1 < 0))]
    rw [if_neg (by omega :
      ¬(axis < -((shape.length : ℤ) + 1) ∨ (shape.length : ℤ) < axis))]
    rw [if_neg (by omega : ¬(axis < 0))]
    congr 2
    omega

/-- C9 witness: the default axis −1 on a rank-2 input, where the reported
and produced shapes agree. -/
theorem expand_layer_signature_negative_axis_witness :
    some (DN3.ExpandLayer.compute_output_signature ⟨-1⟩ [2, 3]) =
      DN3.ExpandLayer.callShape ⟨-1⟩ [2, 3] :=
  expand_layer_signature_negative_axis [2, 3] (-1) (by decide) (Or.inl (by decide))

/-- C10: `AttentionLSTMIn.__init__` raises `TypeError` exactly when
`style` is neither `'local'` nor `'global'`; on success it stores `style`,
and a list/tuple `alignment_units` forces
`alignment_depth = len(alignment_units)` whatever the `alignment_depth`
argument was. -/
theorem attention_lstm_init_style_check (units : ℕ) (alignment_depth : ℤ)
    (style : String) (alignment_units : DN3.AlignmentUnits) (implementation : ℤ) :
    (DN3.okB (DN3.AttentionLSTMIn.init units alignment_depth style alignment_units
        implementation) = true ↔ style = "local" ∨ style = "global") ∧
    (DN3.AttentionLSTMIn.init units alignment_depth style alignment_units implementation =
        Except.error ("Could not understand style: " ++ style) ↔
      ¬(style = "local" ∨ style = "global")) ∧
    (∀ st, DN3.AttentionLSTMIn.init units alignment_depth style alignment_units
        implementation = Except.ok st → st.style = style) ∧
    (∀ l st, alignment_units = DN3.AlignmentUnits.listOf l →
      DN3.AttentionLSTMIn.init units alignment_depth style alignment_units implementation =
        Except.ok st → st.alignment_depth = l.length) := by
  have hmem : style ∈ DN3.ATT_STYLES ↔ style = "local" ∨ style = "global" := by
    simp [DN3.ATT_STYLES]
  refine ⟨?_, ?_, ?_, ?_⟩
  · by_cases hs : style ∈ DN3.ATT_STYLES
    · simp only [DN3.AttentionLSTMIn.init, if_pos hs, DN3.okB]
      simpa using hmem.mp hs
    · simp only [DN3.AttentionLSTMIn.init, if_neg hs, DN3.okB]
      simp [← hmem, hs]
  · by_cases hs : style ∈ DN3.ATT_STYLES
    · simp only [DN3.AttentionLSTMIn.init, if_pos hs]
      simp [hmem.mp hs]
    · simp only [DN3.AttentionLSTMIn.init, if_neg hs]
      simp [← hmem, hs]
  · intro st hst
    by_cases hs : style ∈ DN3.ATT_STYLES
    · simp only [DN3.AttentionLSTMIn.init, if_pos hs] at hst
      have := Except.ok.inj hst
      subst this
      rfl
    · simp only [DN3.AttentionLSTMIn.init, if_neg hs] at hst
      exact Except.noConfusion hst
  · intro l st hl hst
    subst hl
    by_cases hs : style ∈ DN3.ATT_STYLES
    · simp only [DN3.AttentionLSTMIn.init, if_pos hs] at hst
      have := Except.ok.inj hst
      subst this
      rfl
    · simp only [DN3.AttentionLSTMIn.init, if_neg hs] at hst
      exact Except.noConfusion hst

/-- C10 witness: a list-valued `alignment_units` of length 2 with
`alignment_depth = 1` still yields depth 2, `style` is stored, and the
valid style `'local'` is accepted. -/
theorem attention_lstm_init_style_check_witness :
    DN3.okB (DN3.AttentionLSTMIn.init 4 1 "local" (DN3.AlignmentUnits.listOf [3, 5]) 2)
      = true ∧
    ({ units := 4, implementation := 2, alignment_depth := 2, alignment_units := [3, 5],
       style := "local" } : DN3.AttentionLSTMInState).style = "local" ∧
    ({ units := 4, implementation := 2, alignment_depth := 2, alignment_units := [3, 5],
       style := "local" } : DN3.AttentionLSTMInState).alignment_depth = [3, 5].length := by
  have H := attention_lstm_init_style_check 4 1 "local" (DN3.AlignmentUnits.listOf [3, 5]) 2
  refine ⟨H.1.mpr (Or.inl rfl), ?_, ?_⟩
  · exact H.2.2.1 _ rfl
  · exact H.2.2.2 [3, 5] _ rfl rfl
